import Mathlib

/-!
Shallow embedding of the BLDS (Baccus Lab Data Server) session orchestrator:
the length-prefixed framing protocol, the per-client state, and the central
coordinator (class Server) that serializes client requests against a single
data source and a single recording file.

Conventions of the embedding:
- Qt byte arrays are modelled as `List Nat` (byte values); the protocol
  strings in play are ASCII, so a string converts to bytes by mapping each
  character to its code point.
- C++ doubles and floats are modelled as `ℚ` (the claims under study concern
  comparisons and control flow, not rounding).
- The filesystem is modelled as a predicate `String → Bool` passed to the
  handlers that consult it (QFileInfo.exists).
- Fallible external operations (datasource construction, file reads, file
  appends) are modelled by explicit Bool parameters telling whether the
  operation succeeds, plus parameters carrying the produced data.
-/

namespace Blds

/-- Bytes of an ASCII string (model of the QByteArray holding it). -/
def strBytes (s : String) : List Nat := s.data.map Char.toNat

/-- Little-endian 4-byte encoding of a 32-bit unsigned integer
(model of memcpy of a quint32 into a buffer). -/
def u32le (n : Nat) : List Nat :=
  [n % 256, n / 256 % 256, n / 65536 % 256, n / 16777216 % 256]

/-- Truncation of a rational toward zero: model of static_cast from a
floating-point value to an integer type in C++. -/
def ratTrunc (q : ℚ) : ℤ := if 0 ≤ q then ⌊q⌋ else -⌊-q⌋

/-- arma.Mat of qint16: a matrix of samples with shape
(n_rows = samples, n_cols = channels). The elements are listed in the
storage order of the matrix. -/
structure Samples where
  n_rows : Nat
  n_cols : Nat
  elems : List Int
deriving Repr, DecidableEq

/-- DataFrame: start and stop times in seconds plus the sample data
(data-frame.h). -/
structure DataFrameM where
  start : ℚ
  stop : ℚ
  data : Samples
deriving Repr, DecidableEq

/-! ## Frame codec (client.cc, Client.handleReadyRead and senders)

`Client.handleReadyRead` peeks a 4-byte size prefix without consuming it,
then waits unless the total number of buffered bytes (prefix included) is
at least `size - sizeof(size)`, computed in unsigned 32-bit arithmetic. -/

/-- Model of the guard in `Client.handleReadyRead` (client.cc lines 35-55):
given the value of the 4-byte size prefix and the total number of bytes
available in the socket buffer (which still includes the 4 prefix bytes,
since the prefix was only peeked), decide whether the parser proceeds to
read and dispatch the message. The subtraction `size - sizeof(size)` is
unsigned 32-bit, hence performed modulo 2^32. -/
def handleReadyReadProceeds (size bytesAvailable : Nat) : Bool :=
  decide (4 ≤ bytesAvailable) &&
    !(decide (bytesAvailable < (size + 4294967296 - 4) % 4294967296))

/-- Payload of a `source-created` response (client.cc
`Client.sendSourceCreateResponse`): the ASCII type line, one success byte,
then the raw message bytes. -/
def sourceCreateResponsePayload (success : Bool) (msg : List Nat) : List Nat :=
  strBytes "source-created\n" ++ [if success then 1 else 0] ++ msg

/-- The size prefix written by `Client.sendSourceCreateResponse`:
`buffer.size() + sizeof(success) + msg.size()`. -/
def sourceCreateResponsePrefix (msg : List Nat) : Nat :=
  (strBytes "source-created\n").length + 1 + msg.length

/-! ## All-data subscription (client.cc line 157-161, server.cc 899-914) -/

/-- Result of delivering one `get-all-data` message: the final value of the
per-client `m_requestedAllData` flag, and the success flag and message of the
`get-all-data` reply sent back. -/
structure AllDataResult where
  flag : Bool
  success : Bool
  msg : String
deriving Repr, DecidableEq

/-- Model of the complete handling of a `get-all-data` message, combining
`Client.handleAllDataRequestMessage` (which deserializes the requested
boolean directly into the member `m_requestedAllData` before emitting the
`allDataRequest` signal) with `Server.handleClientAllDataRequest` (which
calls `setRequestedAllData` only when there is no recording file or the
request is a cancellation). Arguments: whether a recording file exists,
the value of the flag before the message arrived, and the boolean carried
by the message. -/
def handleAllDataMessage (hasFile _flagBefore requested : Bool) : AllDataResult :=
  -- Client.handleAllDataRequestMessage: m_stream >> m_requestedAllData
  let flagParsed := requested
  -- Server.handleClientAllDataRequest
  if !hasFile || !requested then
    { flag := requested, success := true, msg := "" }
  else
    { flag := flagParsed, success := false,
      msg := "Can only request all data before a recording starts. " ++
        "Data must now be requested in individual chunks." }

/-! ## DataFrame serialization sizes (data-frame.h) -/

/-- `DataFrame.bytesize()`: 2 floats + 2 quint32 + 2 bytes per element
(data-frame.h lines 126-130). `nelem` is `m_data.n_elem`. -/
def DataFrame.bytesize (nelem : Nat) : Nat := 2 * 4 + 2 * 4 + 2 * nelem

/-- The number of bytes `DataFrame.serialize()` allocates for the buffer
(data-frame.h lines 143-145): the literal expression is
`2 * sizeof(m_start) + 2 * sizeof(quint32) * m_data.n_elem * sizeof(DataType)`,
that is 8 + 8 * nelem * 2. -/
def DataFrame.serializeAllocSize (nelem : Nat) : Nat := 2 * 4 + 2 * 4 * nelem * 2

/-- The highest byte offset (exclusive) written by `DataFrame.serializeInto`
(data-frame.h lines 154-165): floats at offsets 0 and 4, the two quint32
counts at offsets 8 and 12, then the 2-byte elements from offset 16. -/
def DataFrame.serializeWrittenSize (nelem : Nat) : Nat := 2 * 4 + 2 * 4 + 2 * nelem

/-! ## QVariant (the subset of Qt variant semantics the server uses) -/

/-- The variant values the server stores in replies: a byte array, a string,
an unsigned 32-bit integer, a boolean, or a floating-point value. -/
inductive QVariantM where
  | vBytes (b : List Nat)
  | vStr (s : String)
  | vUInt (n : Nat)
  | vBool (b : Bool)
  | vFloat (q : ℚ)
deriving Repr, DecidableEq

/-- Textual rendering of a floating-point value, as produced by Qt when a
numeric variant is converted to a byte array (QByteArray.number). The exact
digit string is immaterial to the claims; what matters is that the encoding
is the text of the number, not its 4-byte IEEE-754 image. -/
def floatText (q : ℚ) : String := toString q

/-- QVariant.toByteArray: byte arrays and strings pass through as raw bytes;
numbers render as their decimal text; booleans render as the text
"true" or "false". -/
def QVariantM.toByteArray : QVariantM → List Nat
  | .vBytes b => b
  | .vStr s => strBytes s
  | .vUInt n => strBytes (toString n)
  | .vBool b => strBytes (if b then "true" else "false")
  | .vFloat q => strBytes (floatText q)

/-- QVariant.value of quint32 / toUInt: numeric variants convert; a textual
variant parses as a number when possible (modelled as 0 for the byte/string
cases, which the claims never exercise); booleans convert to 0/1. -/
def QVariantM.toUInt : QVariantM → Nat
  | .vBytes _ => 0
  | .vStr _ => 0
  | .vUInt n => n
  | .vBool b => if b then 1 else 0
  | .vFloat _ => 0

/-! ## Coordinator state (class Server, server.h / server.cc) -/

/-- Per-client state the coordinator sees (class Client). The pending
data-request queue is modelled separately, at the handlers that consult it. -/
structure ClientM where
  id : Nat
  requestedAllData : Bool
deriving Repr, DecidableEq

/-- The open recording file (libdatafile): its sample count and sample rate.
Its length in seconds is nsamples / sampleRate. -/
structure FileM where
  nsamples : Nat
  sampleRate : ℚ
deriving Repr, DecidableEq

/-- file.length(): nsamples divided by the sample rate. -/
def FileM.length (f : FileM) : ℚ := (f.nsamples : ℚ) / f.sampleRate

/-- The mutable state of the Server object used by the handlers under
study. `source` models `source != nullptr`; `file` is the recording sink
when one exists; `sourceSampleRate` is `sourceStatus["sample-rate"]`. -/
structure ServerStateM where
  source : Bool
  file : Option FileM
  saveDirectory : String
  saveFile : String
  recordingLength : Nat
  readInterval : Nat
  startTime : String
  sourceType : String
  sourceLocation : String
  sourceSampleRate : ℚ
  maxRequestChunkSize : ℚ
  clients : List ClientM
  nclients : Nat
  maxConnections : Nat
deriving Repr, DecidableEq

/-! ## Client lifecycle events (server.cc lines 255-284 and 500-509) -/

/-- `Server.handleNewClient`: refuse the connection when `nclients` already
equals `maxConnections`; otherwise append the new client and increment the
counter. Returns the new state and whether the connection was accepted. -/
def handleNewClient (st : ServerStateM) (c : ClientM) : ServerStateM × Bool :=
  if st.nclients = st.maxConnections then
    (st, false)
  else
    ({ st with nclients := st.nclients + 1, clients := st.clients ++ [c] }, true)

/-- QList.removeOne: remove the first occurrence of a value. -/
def removeOne (c : ClientM) : List ClientM → List ClientM
  | [] => []
  | x :: xs => if x = c then xs else x :: removeOne c xs

/-- `Server.handleClientDisconnection`: remove the client from the list and
decrement the counter. -/
def handleClientDisconnection (st : ServerStateM) (c : ClientM) : ServerStateM :=
  { st with clients := removeOne c st.clients, nclients := st.nclients - 1 }

/-- `Server.handleSourceError`: send every client the error message (taking
clients from the back of the list), delete them all, then delete the source.
Returns the new state and the ids of the clients that were sent the error,
in send order. The counter `nclients` is not touched. -/
def handleSourceError (st : ServerStateM) : ServerStateM × List Nat :=
  ({ st with clients := [], source := false },
    st.clients.reverse.map ClientM.id)

/-! ## create-source (server.cc lines 584-623) -/

/-- `Server.handleClientCreateSourceMessage`. `createOk` tells whether
`datasource::create` succeeds (it throws std.invalid_argument otherwise,
with message `errWhat`). When a source already exists the request is
refused; on successful construction the reply to the client is deferred
until the initialized signal fires (modelled as `none`). -/
def handleClientCreateSourceMessage (createOk : Bool) (errWhat : String)
    (st : ServerStateM) : ServerStateM × Option (Bool × String) :=
  if st.source then
    (st, some (false, "Cannot create data source while another exists."))
  else
    if createOk then
      ({ st with source := true }, none)
    else
      (st, some (false, "Could not create source! " ++ errWhat))

/-! ## set server parameter (server.cc lines 644-699) -/

/-- The value carried by a `set` message after parsing by
`Client.handleServerSetMessage`: a raw string for the path parameters, a
32-bit unsigned integer for the counters. -/
inductive SetValue where
  | str (s : String)
  | u32 (n : Nat)
deriving Repr, DecidableEq

/-- QVariant.toString of a parsed set value. -/
def SetValue.toStr : SetValue → String
  | .str s => s
  | .u32 n => toString n

/-- QVariant.value of quint32 of a parsed set value. -/
def SetValue.toU32 : SetValue → Nat
  | .str _ => 0
  | .u32 n => n

/-- The `set` reply sent by `Client.sendServerSetResponse`. -/
structure SetReply where
  param : String
  success : Bool
  msg : String
deriving Repr, DecidableEq

/-- `Server.handleClientSetServerParamMessage`. The filesystem is the
predicate `fsExists`. Every branch ends by sending a `set` reply. Note that
the existence check for `save-file` is on `saveDirectory + name`, with no
path separator inserted. The source wraps the offending path or directory
in single quotation marks inside the failure messages; the model omits the
quotation marks, which no claim inspects. -/
def handleClientSetServerParamMessage (fsExists : String → Bool)
    (st : ServerStateM) (param : String) (value : SetValue) :
    ServerStateM × SetReply :=
  if st.file.isSome then
    (st, { param := param, success := false,
           msg := "Cannot set server parameters while a recording is active. " ++
             "Stop it first." })
  else if param = "save-file" then
    let name := value.toStr
    let path := st.saveDirectory ++ name
    if fsExists path then
      (st, { param := param, success := false,
             msg := "Save file at " ++ path ++ " already exists, remove it first." })
    else
      ({ st with saveFile := name }, { param := param, success := true, msg := "" })
  else if param = "save-directory" then
    let dir := value.toStr
    if fsExists dir then
      ({ st with saveDirectory := dir },
        { param := param, success := true, msg := "" })
    else
      (st, { param := param, success := false,
             msg := "Requested save directory " ++ dir ++ " does not exist." })
  else if param = "recording-length" then
    ({ st with recordingLength := value.toU32 },
      { param := param, success := true, msg := "" })
  else if param = "read-interval" then
    ({ st with readInterval := value.toU32 },
      { param := param, success := true, msg := "" })
  else
    (st, { param := param, success := false, msg := "" })

/-! ## get server parameter (server.cc lines 701-740, client.cc 257-274) -/

/-- `Server.handleClientGetServerParamMessage`: select the variant value for
the requested parameter and whether the parameter is known. -/
def handleClientGetServerParamMessage (st : ServerStateM) (param : String) :
    Bool × QVariantM :=
  if param = "save-file" then
    (true, .vBytes (strBytes st.saveFile))
  else if param = "recording-length" then
    (true, .vUInt st.recordingLength)
  else if param = "save-directory" then
    (true, .vBytes (strBytes st.saveDirectory))
  else if param = "read-interval" then
    (true, .vUInt st.readInterval)
  else if param = "recording-exists" then
    (true, .vBool st.file.isSome)
  else if param = "recording-position" then
    (true, .vFloat (match st.file with | some f => f.length | none => 0))
  else if param = "source-exists" then
    (true, .vBool st.source)
  else if param = "source-type" then
    (true, .vBytes (strBytes st.sourceType))
  else if param = "start-time" then
    (true, .vBytes (strBytes st.startTime))
  else if param = "source-location" then
    (true, .vBytes (strBytes st.sourceLocation))
  else
    (false, .vBytes (strBytes ("Unknown parameter type: " ++ param)))

/-- `Client.encodeServerGetResponseData`: the two path parameters pass
through as the raw bytes of the variant; the two counters are encoded as a
4-byte little-endian quint32; everything else falls to the catch-all branch,
which is the byte-array conversion of the variant. -/
def encodeServerGetResponseData (param : String) (data : QVariantM) : List Nat :=
  if param = "save-file" ∨ param = "save-directory" then
    data.toByteArray
  else if param = "recording-length" ∨ param = "read-interval" then
    u32le data.toUInt
  else
    data.toByteArray

/-- The valid flag and encoded value bytes of the `get` reply for a
server-scope parameter: the coordinator selects the variant, the client
session encodes it. -/
def serverGetReply (st : ServerStateM) (param : String) : Bool × List Nat :=
  let r := handleClientGetServerParamMessage st param
  (r.1, encodeServerGetResponseData param r.2)

/-! ## get-data chunk requests (server.cc lines 851-897 and 962-967) -/

/-- `Server.verifyChunkRequest` (server.cc lines 962-967): start
nonnegative, stop beyond start by more than one sample period (computed
from `sourceStatus["sample-rate"]`), and a chunk no longer than
`maxRequestChunkSize`. -/
def verifyChunkRequest (st : ServerStateM) (start stop : ℚ) : Bool :=
  decide (0 ≤ start) &&
    decide (start + 1 / st.sourceSampleRate < stop) &&
    decide (stop - start ≤ st.maxRequestChunkSize)

/-- How `Server.handleClientDataRequest` disposes of a request: each
constructor mirrors one exit of the function. The error constructors stand
for the calls to `sendErrorMessage` with the corresponding message. -/
inductive ChunkOutcome where
  | noRecordingError
  | tooLongError
  | invalidError
  | readError
  | sentFrame (frame : DataFrameM)
  | queued
deriving Repr, DecidableEq

/-- `Server.handleClientDataRequest`. `pending` is the requesting client
pending-request queue (m_pendingRequests); `readOk` and `readData` model
whether `file->data(...)` succeeds and what it reads. Returns the disposal
of the request and the new pending queue. -/
def handleClientDataRequest (st : ServerStateM) (readOk : Bool)
    (readData : Samples) (pending : List (ℚ × ℚ)) (start stop : ℚ) :
    ChunkOutcome × List (ℚ × ℚ) :=
  match st.file with
  | none => (.noRecordingError, pending)
  | some f =>
    if (st.recordingLength : ℚ) < stop then
      (.tooLongError, pending)
    else if !verifyChunkRequest st start stop then
      (.invalidError, pending)
    else
      let endSample : ℤ := ratTrunc (stop * f.sampleRate)
      if endSample ≤ (f.nsamples : ℤ) then
        if readOk then
          (.sentFrame { start := start, stop := stop, data := readData }, pending)
        else
          (.readError, pending)
      else
        (.queued, pending ++ [(start, stop)])

/-! ## sample broadcast (server.cc lines 511-557) -/

/-- `Server.sendDataToClients`, called after the batch has been appended:
compute start and stop from the post-append sample count, build one frame,
and send it to exactly the clients whose `requestedAllData` flag is set.
The result lists, for each client in list order, the frame that client was
sent (or none). -/
def sendDataToClients (f : FileM) (clients : List ClientM) (batch : Samples) :
    List (Option DataFrameM) :=
  let sr := f.sampleRate
  let stopSample := f.nsamples
  let startSample := stopSample - batch.n_rows
  let frame : DataFrameM :=
    { start := (startSample : ℚ) / sr, stop := (stopSample : ℚ) / sr, data := batch }
  clients.map (fun c => if c.requestedAllData then some frame else none)

/-- Result of `Server.handleNewDataAvailable`: either the append failed
(every client is sent an error and deleted, the stream is stopped and the
source deleted), or it succeeded and the listed frames were broadcast. -/
inductive NewDataResult where
  | writeError (errorSentTo : List Nat)
  | ok (frameSends : List (Option DataFrameM))
deriving Repr, DecidableEq

/-- `Server.handleNewDataAvailable` (server.cc lines 511-536): append the
batch to the recording file (`appendOk` models whether the HDF5 write
throws), then, when the client counter is nonzero, broadcast the batch via
`sendDataToClients`. The pending-request drain that follows the broadcast
is modelled separately and sends frames only for queued chunk requests,
never for the batch itself. The handler is only ever connected while a
recording file exists; the model returns the state unchanged with an empty
broadcast if `file` is none. -/
def handleNewDataAvailable (st : ServerStateM) (appendOk : Bool)
    (batch : Samples) : ServerStateM × NewDataResult :=
  match st.file with
  | none => (st, .ok [])
  | some f =>
    if appendOk then
      let f' : FileM := { f with nsamples := f.nsamples + batch.n_rows }
      let st' := { st with file := some f' }
      if st.nclients ≠ 0 then
        (st', .ok (sendDataToClients f' st.clients batch))
      else
        (st', .ok (st.clients.map fun _ => none))
    else
      ({ st with source := false }, .writeError (st.clients.map ClientM.id))

/-! ## Concrete states used to instantiate the theorems -/

/-- A recording file two seconds into a 10 kHz recording. -/
def exampleFile : FileM := { nsamples := 20000, sampleRate := 10000 }

/-- A server with an active source and an active recording, one connected
client, and the default configuration values (server.h). -/
def exampleState : ServerStateM :=
  { source := true
    file := some exampleFile
    saveDirectory := "/home/user/Desktop/"
    saveFile := "rec.h5"
    recordingLength := 1000
    readInterval := 10
    startTime := "2017-01-01T00:00:00"
    sourceType := "file"
    sourceLocation := "/data/old.h5"
    sourceSampleRate := 10000
    maxRequestChunkSize := 10
    clients := [{ id := 0, requestedAllData := false }]
    nclients := 1
    maxConnections := 32 }

/-- A server with no source, no recording and no clients, whose save
directory does not end with a path separator. -/
def idleState : ServerStateM :=
  { exampleState with
    source := false
    file := none
    saveDirectory := "/tmp"
    saveFile := ""
    clients := []
    nclients := 0 }

/-- A streaming server with two clients, only the first of which subscribed
to all data, over a 10 Hz recording holding 100 samples. -/
def broadcastState : ServerStateM :=
  { exampleState with
    file := some { nsamples := 100, sampleRate := 10 }
    clients := [{ id := 0, requestedAllData := true },
                { id := 1, requestedAllData := false }]
    nclients := 2 }

/-- A 50-row sample batch (content immaterial to the timing claims). -/
def exampleBatch : Samples := { n_rows := 50, n_cols := 2, elems := [] }

/-! # Theorems -/

/-- Removing a present element shortens the list by exactly one. -/
theorem removeOne_length_of_mem (c : ClientM) (l : List ClientM) (h : c ∈ l) :
    (removeOne c l).length + 1 = l.length := by
  induction l with
  | nil => cases h
  | cons x xs ih =>
    by_cases hx : x = c
    · simp [removeOne, hx]
    · rcases List.mem_cons.mp h with h1 | h2
      · exact absurd h1.symm hx
      · simp only [removeOne, if_neg hx, List.length_cons]
        rw [← ih h2]

/-- C2: the four-byte prefix the server writes counts exactly the payload
bytes that follow it (shown for the source-created response), but the
receive loop proceeds to parse a message as soon as the total buffered
byte count — which still includes the four prefix bytes — reaches the
declared size minus four: at declared size 12 with 12 buffered bytes only
8 payload bytes have arrived, yet the parser proceeds. -/
theorem framing_prefix_and_early_parse :
    handleReadyReadProceeds 12 12 = true ∧ (12 - 4 : Nat) < 12 ∧
    ∀ (success : Bool) (msg : List Nat),
      sourceCreateResponsePrefix msg = (sourceCreateResponsePayload success msg).length := by
  refine ⟨by decide, by decide, fun success msg => ?_⟩
  simp [sourceCreateResponsePrefix, sourceCreateResponsePayload]
  omega

/-- C3: when a recording file exists and a client whose all-data flag is
false sends get-all-data with requested=true, the server replies with a
failure, yet the flag ends up true, because the message parser stores the
requested value directly into the member before the server decides. -/
theorem allData_flag_set_despite_rejection :
    (handleAllDataMessage true false true).success = false ∧
    (handleAllDataMessage true false true).flag = true ∧
    (handleAllDataMessage true false false).success = true := by
  decide

/-- C5: any set request on a server-scope parameter arriving while a
recording file exists is answered with a failure reply carrying the fixed
message, and the server state is left untouched. -/
theorem setServerParam_rejected_while_recording (fsExists : String → Bool)
    (st : ServerStateM) (param : String) (value : SetValue)
    (h : st.file.isSome = true) :
    handleClientSetServerParamMessage fsExists st param value =
      (st, { param := param, success := false,
             msg := "Cannot set server parameters while a recording is active. " ++
               "Stop it first." }) := by
  unfold handleClientSetServerParamMessage
  rw [h]
  simp

/-- Witness for C5 at a concrete recording state. -/
theorem setServerParam_rejected_while_recording_witness :
    handleClientSetServerParamMessage (fun _ => false) exampleState
        "recording-length" (.u32 500) =
      (exampleState,
        { param := "recording-length", success := false,
          msg := "Cannot set server parameters while a recording is active. " ++
            "Stop it first." }) :=
  setServerParam_rejected_while_recording (fun _ => false) exampleState
    "recording-length" (.u32 500) rfl

/-- C6: the buffer DataFrame.serialize allocates never has the
bytesize() the class itself computes (it allocates 8 + 16 n bytes instead
of 16 + 2 n for n elements), and for an empty frame the allocation (8
bytes) is even smaller than the 16 bytes serializeInto writes. -/
theorem serialize_alloc_size_mismatch :
    DataFrame.serializeAllocSize 0 = 8 ∧
    DataFrame.serializeWrittenSize 0 = 16 ∧
    DataFrame.bytesize 0 = 16 ∧
    DataFrame.serializeAllocSize 0 < DataFrame.serializeWrittenSize 0 ∧
    ∀ nelem, (DataFrame.serializeAllocSize nelem == DataFrame.bytesize nelem) = false := by
  refine ⟨rfl, rfl, rfl, by decide, fun nelem => ?_⟩
  rw [beq_eq_false_iff_ne]
  unfold DataFrame.serializeAllocSize DataFrame.bytesize
  omega

/-- C9: a create-source request arriving while a source already exists is
answered with a source-created failure carrying the fixed message, and the
server state is unchanged. -/
theorem createSource_rejected_when_exists (createOk : Bool) (errWhat : String)
    (st : ServerStateM) (h : st.source = true) :
    handleClientCreateSourceMessage createOk errWhat st =
      (st, some (false, "Cannot create data source while another exists.")) := by
  unfold handleClientCreateSourceMessage
  rw [h]
  simp

/-- Witness for C9 at a concrete state with an active source. -/
theorem createSource_rejected_when_exists_witness :
    handleClientCreateSourceMessage true "" exampleState =
      (exampleState, some (false, "Cannot create data source while another exists.")) :=
  createSource_rejected_when_exists true "" exampleState rfl

/-- C7 counterexample: a successful get of recording-exists on a server
with no recording returns the five bytes of the text "false", not the
single byte 0 or 1 the claim describes: the boolean parameters fall into
the catch-all toByteArray branch of the encoder. -/
theorem get_bool_encoding_not_single_byte :
    serverGetReply idleState "recording-exists" = (true, strBytes "false") ∧
    (strBytes "false").length = 5 ∧
    ((encodeServerGetResponseData "recording-exists" (.vBool false)) == [0]) = false ∧
    ((encodeServerGetResponseData "recording-exists" (.vBool false)) == [1]) = false := by
  decide

/-- C7 as amended: a successful server-scope get encodes its value as a
4-byte little-endian u32 only for recording-length and read-interval;
every other key goes through the byte-array conversion of the variant —
raw bytes for the string-valued keys, the text true/false for the two
booleans, and the decimal text of the position for recording-position. -/
theorem serverGet_encoding_by_param (st : ServerStateM) :
    serverGetReply st "recording-length" = (true, u32le st.recordingLength) ∧
    serverGetReply st "read-interval" = (true, u32le st.readInterval) ∧
    serverGetReply st "save-file" = (true, strBytes st.saveFile) ∧
    serverGetReply st "save-directory" = (true, strBytes st.saveDirectory) ∧
    serverGetReply st "start-time" = (true, strBytes st.startTime) ∧
    serverGetReply st "source-type" = (true, strBytes st.sourceType) ∧
    serverGetReply st "source-location" = (true, strBytes st.sourceLocation) ∧
    serverGetReply st "recording-exists" =
      (true, strBytes (if st.file.isSome then "true" else "false")) ∧
    serverGetReply st "source-exists" =
      (true, strBytes (if st.source then "true" else "false")) ∧
    serverGetReply st "recording-position" =
      (true, strBytes (floatText (match st.file with | some f => f.length | none => 0))) := by
  refine ⟨?_, ?_, ?_, ?_, ?_, ?_, ?_, ?_, ?_, ?_⟩ <;>
    simp [serverGetReply, handleClientGetServerParamMessage,
      encodeServerGetResponseData, QVariantM.toByteArray, QVariantM.toUInt]

/-- C8 counterexample: with no recording, save directory "/tmp" (no
trailing separator) and a filesystem on which exactly "/tmp/x.h5" exists,
setting save-file to "x.h5" succeeds and stores the name, although the
path save-directory + "/" + name exists — the code checks
saveDirectory + name ("/tmpx.h5") instead. -/
theorem setSaveFile_no_separator_counterexample :
    ((fun s => s == "/tmp/x.h5") (idleState.saveDirectory ++ "/" ++ "x.h5")) = true ∧
    (handleClientSetServerParamMessage (fun s => s == "/tmp/x.h5") idleState
      "save-file" (.str "x.h5")).2.success = true ∧
    (handleClientSetServerParamMessage (fun s => s == "/tmp/x.h5") idleState
      "save-file" (.str "x.h5")).1.saveFile = "x.h5" := by
  refine ⟨by decide, ?_, ?_⟩ <;> decide

/-- C8 as amended: while no recording exists, a set of save-file is
rejected (with the state unchanged) exactly when the direct concatenation
save-directory + name — with no path separator inserted — already exists;
when it does not, save-file is set to the name and the reply is success. -/
theorem setSaveFile_existence_check (fsExists : String → Bool)
    (st : ServerStateM) (name : String) (h : st.file = none) :
    ((handleClientSetServerParamMessage fsExists st "save-file" (.str name)).2.success = false
        ↔ fsExists (st.saveDirectory ++ name) = true) ∧
    (fsExists (st.saveDirectory ++ name) = true →
      (handleClientSetServerParamMessage fsExists st "save-file" (.str name)).1 = st) ∧
    (fsExists (st.saveDirectory ++ name) = false →
      (handleClientSetServerParamMessage fsExists st "save-file" (.str name)).1 =
          { st with saveFile := name } ∧
        (handleClientSetServerParamMessage fsExists st "save-file" (.str name)).2.success = true) := by
  unfold handleClientSetServerParamMessage
  have hs : st.file.isSome = false := by rw [h]; rfl
  rw [hs]
  by_cases hfs : fsExists (st.saveDirectory ++ name) = true
  · simp [SetValue.toStr, hfs]
  · have hfs' : fsExists (st.saveDirectory ++ name) = false := by
      revert hfs
      cases fsExists (st.saveDirectory ++ name) <;> simp
    simp [SetValue.toStr, hfs']

/-- Witness for C8 at a concrete idle state on an empty filesystem. -/
theorem setSaveFile_existence_check_witness :
    (handleClientSetServerParamMessage (fun _ => false) idleState
        "save-file" (.str "new.h5")).1 =
      { idleState with saveFile := "new.h5" } ∧
    (handleClientSetServerParamMessage (fun _ => false) idleState
        "save-file" (.str "new.h5")).2.success = true :=
  (setSaveFile_existence_check (fun _ => false) idleState "new.h5" rfl).2.2 rfl

/-- C10 counterexample: a source error on a server with one connected
client (and nclients = 1) empties the clients list but leaves the counter
at 1, so nclients no longer equals the number of entries in the list. -/
theorem sourceError_counter_stale :
    (handleSourceError exampleState).1.nclients = 1 ∧
    (handleSourceError exampleState).1.clients.length = 0 ∧
    ((handleSourceError exampleState).1.nclients ==
      (handleSourceError exampleState).1.clients.length) = false := by
  decide

/-- C10 as amended: accepting a new client and handling a client
disconnection both preserve nclients = number of clients in the list (the
disconnecting client being in the list), and a new connection is refused
exactly when nclients equals max-connections; but a source error empties
the clients list while leaving nclients at its previous value, so after a
source error with clients connected the counter exceeds the list length. -/
theorem nclients_tracks_clients :
    (∀ st c, st.nclients = st.clients.length →
      (handleNewClient st c).1.nclients = (handleNewClient st c).1.clients.length) ∧
    (∀ st c, (handleNewClient st c).2 = false ↔ st.nclients = st.maxConnections) ∧
    (∀ st c, c ∈ st.clients → st.nclients = st.clients.length →
      (handleClientDisconnection st c).nclients =
        (handleClientDisconnection st c).clients.length) ∧
    (∀ st, (handleSourceError st).1.clients = [] ∧
      (handleSourceError st).1.nclients = st.nclients) := by
  refine ⟨fun st c h => ?_, fun st c => ?_, fun st c hm h => ?_, fun st => ⟨rfl, rfl⟩⟩
  · unfold handleNewClient
    by_cases hmax : st.nclients = st.maxConnections
    · rw [if_pos hmax]
      exact h
    · rw [if_neg hmax]
      simp [h]
  · unfold handleNewClient
    by_cases hmax : st.nclients = st.maxConnections
    · rw [if_pos hmax]
      simp [hmax]
    · rw [if_neg hmax]
      simp [hmax]
  · unfold handleClientDisconnection
    have := removeOne_length_of_mem c st.clients hm
    simp only []
    omega

/-- Witness for C10 at concrete states: accepting a second client onto a
balanced one-client server keeps the counter matched, and so does a
genuine disconnection. -/
theorem nclients_tracks_clients_witness :
    (handleNewClient exampleState { id := 1, requestedAllData := false }).1.nclients =
      (handleNewClient exampleState { id := 1, requestedAllData := false }).1.clients.length ∧
    (handleClientDisconnection exampleState { id := 0, requestedAllData := false }).nclients =
      (handleClientDisconnection exampleState { id := 0, requestedAllData := false }).clients.length :=
  ⟨nclients_tracks_clients.1 exampleState { id := 1, requestedAllData := false } rfl,
    nclients_tracks_clients.2.2.1 exampleState { id := 0, requestedAllData := false }
      (by decide) rfl⟩

/-- C1: a get-data chunk request is serviced or queued only when a
recording file exists, stop is at most the recording length, and
verifyChunkRequest accepts it (start nonnegative, stop beyond start by
more than one sample period, chunk at most the maximum size); a request
failing those checks is answered with an error and is neither serviced nor
queued, and without a recording file every request draws an error. -/
theorem chunkRequest_validation (st : ServerStateM) (readOk : Bool)
    (readData : Samples) (pending : List (ℚ × ℚ)) (start stop : ℚ) :
    (st.file = none →
      handleClientDataRequest st readOk readData pending start stop =
        (.noRecordingError, pending)) ∧
    (st.file.isSome = true →
      ((st.recordingLength : ℚ) < stop ∨ verifyChunkRequest st start stop = false) →
      ((handleClientDataRequest st readOk readData pending start stop).1 = .tooLongError ∨
        (handleClientDataRequest st readOk readData pending start stop).1 = .invalidError) ∧
      (handleClientDataRequest st readOk readData pending start stop).2 = pending) ∧
    (((handleClientDataRequest st readOk readData pending start stop).1 = .queued ∨
        (handleClientDataRequest st readOk readData pending start stop).1 = .readError ∨
        (∃ fr, (handleClientDataRequest st readOk readData pending start stop).1 =
          .sentFrame fr)) →
      st.file.isSome = true ∧ stop ≤ (st.recordingLength : ℚ) ∧
        verifyChunkRequest st start stop = true) ∧
    ((handleClientDataRequest st readOk readData pending start stop).2 ≠ pending →
      (handleClientDataRequest st readOk readData pending start stop).1 = .queued ∧
      (handleClientDataRequest st readOk readData pending start stop).2 =
        pending ++ [(start, stop)]) := by
  rcases hf : st.file with _ | f
  · have heq : handleClientDataRequest st readOk readData pending start stop =
        (.noRecordingError, pending) := by
      simp only [handleClientDataRequest, hf]
    refine ⟨fun _ => heq, fun hsome _ => ?_, fun hout => ?_, fun hne => ?_⟩
    · simp at hsome
    · rw [heq] at hout
      rcases hout with h | h | ⟨fr, h⟩ <;> simp at h
    · rw [heq] at hne
      simp at hne
  · by_cases h1 : (st.recordingLength : ℚ) < stop
    · have heq : handleClientDataRequest st readOk readData pending start stop =
          (.tooLongError, pending) := by
        simp only [handleClientDataRequest, hf]
        rw [if_pos h1]
      refine ⟨fun hnone => ?_, fun _ _ => ?_, fun hout => ?_, fun hne => ?_⟩
      · cases hnone
      · rw [heq]
        exact ⟨Or.inl rfl, rfl⟩
      · rw [heq] at hout
        rcases hout with h | h | ⟨fr, h⟩ <;> simp at h
      · rw [heq] at hne
        simp at hne
    · by_cases h2 : verifyChunkRequest st start stop = true
      · refine ⟨fun hnone => ?_, fun _ hbad => ?_, fun _ => ?_, fun hne => ?_⟩
        · cases hnone
        · rcases hbad with hb | hb
          · exact absurd hb h1
          · rw [h2] at hb
            cases hb
        · exact ⟨rfl, le_of_not_lt h1, h2⟩
        · by_cases h3 : ratTrunc (stop * f.sampleRate) ≤ (f.nsamples : ℤ)
          · have heq : (handleClientDataRequest st readOk readData pending start stop).2 =
                pending := by
              simp only [handleClientDataRequest, hf]
              rw [if_neg h1, h2]
              simp only [Bool.not_true, Bool.false_eq_true, if_false, if_pos h3]
              cases readOk <;> rfl
            exact absurd heq hne
          · have heq : handleClientDataRequest st readOk readData pending start stop =
                (.queued, pending ++ [(start, stop)]) := by
              simp only [handleClientDataRequest, hf]
              rw [if_neg h1, h2]
              simp only [Bool.not_true, Bool.false_eq_true, if_false, if_neg h3]
            rw [heq]
            exact ⟨rfl, rfl⟩
      · have h2' : verifyChunkRequest st start stop = false := by
          revert h2
          cases verifyChunkRequest st start stop <;> simp
        have heq : handleClientDataRequest st readOk readData pending start stop =
            (.invalidError, pending) := by
          simp only [handleClientDataRequest, hf]
          rw [if_neg h1, h2']
          simp only [Bool.not_false, if_true]
        refine ⟨fun hnone => ?_, fun _ _ => ?_, fun hout => ?_, fun hne => ?_⟩
        · cases hnone
        · rw [heq]
          exact ⟨Or.inr rfl, rfl⟩
        · rw [heq] at hout
          rcases hout with h | h | ⟨fr, h⟩ <;> simp at h
        · rw [heq] at hne
          simp at hne

/-- Witness for C1: with an active recording of length 1000 s, a request
for [0, 2000) is answered with the too-long error and queues nothing,
and a request for [0, 1) passes validation and is queued (2000 s of data
are not yet recorded at 2 s into the recording). -/
theorem chunkRequest_validation_witness :
    ((handleClientDataRequest exampleState true exampleBatch [] 0 2000).1 =
        .tooLongError ∨
      (handleClientDataRequest exampleState true exampleBatch [] 0 2000).1 =
        .invalidError) ∧
    (handleClientDataRequest exampleState true exampleBatch [] 0 2000).2 = [] :=
  (chunkRequest_validation exampleState true exampleBatch [] 0 2000).2.1
    rfl (Or.inl (by norm_num [exampleState]))

/-- C4: appending a batch while clients are connected broadcasts, to
exactly the clients whose all-data flag is set, one frame whose start and
stop are the post-append sample count minus the batch rows and the
post-append sample count, divided by the sample rate, and whose content is
the batch; flag-false clients receive nothing from the broadcast pass. -/
theorem broadcast_frames_per_batch (st : ServerStateM) (f : FileM)
    (batch : Samples) (hf : st.file = some f) (hcl : st.clients ≠ [])
    (hn : st.nclients = st.clients.length) :
    (handleNewDataAvailable st true batch).1.file =
      some { f with nsamples := f.nsamples + batch.n_rows } ∧
    (handleNewDataAvailable st true batch).2 =
      .ok (st.clients.map (fun c =>
        if c.requestedAllData then
          some { start := (((f.nsamples + batch.n_rows : ℕ) : ℚ) - (batch.n_rows : ℚ)) /
                   f.sampleRate,
                 stop := ((f.nsamples + batch.n_rows : ℕ) : ℚ) / f.sampleRate,
                 data := batch }
        else none)) := by
  have hn0 : st.nclients ≠ 0 := by
    rw [hn]
    simpa using hcl
  have heq : handleNewDataAvailable st true batch =
      ({ st with file := some { f with nsamples := f.nsamples + batch.n_rows } },
        .ok (sendDataToClients { f with nsamples := f.nsamples + batch.n_rows }
          st.clients batch)) := by
    simp only [handleNewDataAvailable, hf, if_true]
    rw [if_pos hn0]
  rw [heq]
  refine ⟨rfl, ?_⟩
  unfold sendDataToClients
  have hsub : (((f.nsamples + batch.n_rows : ℕ) : ℚ) - (batch.n_rows : ℚ)) =
      ((f.nsamples : ℕ) : ℚ) := by
    push_cast
    ring
  rw [hsub]
  simp only [Nat.add_sub_cancel]

/-- Witness for C4: on the streaming two-client state, appending 50 rows
to the 100-sample 10 Hz file sends the subscribed client one frame over
[10 s, 15 s) and the unsubscribed client nothing. -/
theorem broadcast_frames_per_batch_witness :
    (handleNewDataAvailable broadcastState true exampleBatch).2 =
      .ok [some { start := 10, stop := 15, data := exampleBatch }, none] := by
  have h := (broadcast_frames_per_batch broadcastState { nsamples := 100, sampleRate := 10 }
    exampleBatch rfl (by decide) rfl).2
  rw [h]
  norm_num [broadcastState, exampleState, exampleBatch]

end Blds
